import Mathlib

/-!
Verification of the Invoice Hawk reconciliation core against its design
specification.  The Python source is shallowly embedded: pure functions
become Lean functions over `ℚ`, `String`, `List`; the HTTP/DB handlers
become explicit state-passing functions; exceptions become sum types or
`Option`.  All numeric arithmetic is modelled over `ℚ` (the Python code
uses floats only on small decimal constants; no claim here depends on
float rounding).
-/

namespace InvoiceHawk

/-! ## Tolerance policy and matching engine

Embeds `invoice_hawk/lambda_functions/po_lookup/main.py` (`_compare_lines`
and its module constants), `invoice_hawk/cli.py` (`compare_lines`), and
`app/match_po.py` (`two_way_match`).
-/

/-- `PRICE_TOLERANCE = 0.02` from po_lookup/main.py (cli.py repeats it). -/
def PRICE_TOLERANCE : ℚ := 2/100

/-- `QTY_TOLERANCE = 0.01` from po_lookup/main.py (cli.py repeats it). -/
def QTY_TOLERANCE : ℚ := 1/100

/-- An invoice line item or a purchase-order line: the two numeric fields
the matching code reads (`quantity`, `price`). -/
structure Line where
  quantity : ℚ
  price : ℚ
deriving DecidableEq

/-- The per-line check inside `_compare_lines` (po_lookup/main.py lines
41-52): tolerances are based on the invoice line's own values; the Python
`if invoice_li.quantity` truthiness test makes a zero basis give a zero
tolerance. -/
def lineWithinTol (inv po : Line) : Bool :=
  let qty_tol : ℚ := if inv.quantity ≠ 0 then QTY_TOLERANCE * inv.quantity else 0
  let price_tol : ℚ := if inv.price ≠ 0 then PRICE_TOLERANCE * inv.price else 0
  decide (|inv.quantity - po.quantity| ≤ qty_tol) &&
    decide (|inv.price - po.price| ≤ price_tol)

/-- `_compare_lines` (po_lookup/main.py lines 32-54): walk the invoice
lines by index; if the PO list is exhausted first, fail immediately;
otherwise require every per-line check to pass. -/
def compareLines : List Line → List Line → Bool
  | [], _ => true
  | _ :: _, [] => false
  | inv :: invs, po :: pos => lineWithinTol inv po && compareLines invs pos

/-- The per-line check inside `cli.compare_lines` (cli.py lines 73-78);
textually duplicated from po_lookup with the same constants. -/
def cliLineWithinTol (inv po : Line) : Bool :=
  let qty_tol : ℚ := if inv.quantity ≠ 0 then QTY_TOLERANCE * inv.quantity else 0
  let price_tol : ℚ := if inv.price ≠ 0 then PRICE_TOLERANCE * inv.price else 0
  decide (|inv.quantity - po.quantity| ≤ qty_tol) &&
    decide (|inv.price - po.price| ≤ price_tol)

/-- `cli.compare_lines` (cli.py lines 67-80): same index walk, with the
`IndexError` from `list(po_lines)[i]` returning `False`. -/
def cliCompareLines : List Line → List Line → Bool
  | [], _ => true
  | _ :: _, [] => false
  | inv :: invs, po :: pos => cliLineWithinTol inv po && cliCompareLines invs pos

/-- Result dictionary of `two_way_match` (app/match_po.py). -/
structure TwoWayResult where
  matched : Bool
  price_ok : Bool
  qty_ok : Bool
deriving DecidableEq

/-- `two_way_match` (app/match_po.py) at its default tolerances
(`price_tol=0.02`, `qty_tol=0.01`): the PO is the hard-coded stub line
`qty=10, unit_price=99.5`, only `payload["lines"][0]` is inspected, and
the tolerance bases are the PO line's values, with the quantity bound
floored at 1 by `max(1, pol["qty"]*qty_tol)`. -/
def two_way_match (invQty invPrice : ℚ) : TwoWayResult :=
  let polQty : ℚ := 10
  let polPrice : ℚ := 199/2
  let price_ok := decide (|invPrice - polPrice| ≤ polPrice * (2/100))
  let qty_ok := decide (|invQty - polQty| ≤ max 1 (polQty * (1/100)))
  ⟨price_ok && qty_ok, price_ok, qty_ok⟩

/-- The spec's wording of the per-line tolerance check (spec §4.1 /
claim C2), stated verbatim for comparison against the source embeddings:
quantity passes iff `|q_i - q_r| <= max(QTY_TOLERANCE * q_i, 0)` and
price passes iff `|p_i - p_r| <= PRICE_TOLERANCE * p_i`, both bases the
invoice's own values. -/
def specLinePass (qi pi qr pr : ℚ) : Prop :=
  |qi - qr| ≤ max (QTY_TOLERANCE * qi) 0 ∧ |pi - pr| ≤ PRICE_TOLERANCE * pi

instance (qi pi qr pr : ℚ) : Decidable (specLinePass qi pi qr pr) := by
  unfold specLinePass; infer_instance

/-! ## Resilient external client

Embeds `NetSuiteClient._request` (`invoice_hawk/netsuite_client.py`
lines 36-67) in non-test mode.  The transport (`requests.request`) is a
parameter: on each loop attempt it either returns a response to the
first call (the call passing `timeout=`), raises `TypeError` on that
call and returns a response to the fallback call without `timeout=`
(this is how the repository's test double behaves), or raises some other
exception.  Sleeps are recorded as the list of requested durations, and
`calls` counts the transport invocations that produced a response
(matching the counter in `tests/test_netsuite_retry.py`, whose double is
never entered on the `timeout=` call). -/

/-- A transport response: HTTP status, `some` parsed JSON body (modelled
as an opaque string) when `.json()` succeeds, and the raw `.text`. -/
structure NSResponse where
  status : Nat
  jsonBody : Option String
  text : String
deriving DecidableEq

/-- What the transport does on one loop attempt of `_request`. -/
inductive TransportStep where
  /-- The call with `timeout=` returns this response. -/
  | acceptsTimeout (r : NSResponse)
  /-- The call with `timeout=` raises `TypeError`; the fallback call
  without `timeout=` returns this response. -/
  | rejectsTimeout (r : NSResponse)
  /-- The call with `timeout=` raises a non-`TypeError` exception. -/
  | raisesOther
deriving DecidableEq

/-- The value a successful `_request` returns: `resp.json()` when the
body parses, else the raw text wrapped in a one-key dict. -/
inductive NSPayload where
  | json (body : String)
  | text (body : String)
deriving DecidableEq

/-- How one run of `_request` terminates. -/
inductive NSOutcome where
  /-- `return resp.json()` or `return {"text": resp.text}`. -/
  | ok (p : NSPayload)
  /-- `raise NetSuiteError("Rate limited (429) after retries")`. -/
  | rateLimited
  /-- `raise NetSuiteError(f"HTTP {status}: {text}")`. -/
  | httpError (status : Nat) (body : String)
  /-- a transport exception re-raised on the last attempt. -/
  | transportRaised
  /-- the `for` loop finished without returning: the trailing
  `raise NetSuiteError(...)` fires. -/
  | loopExhausted
deriving DecidableEq

/-- Observable trace of one `_request` run: transport calls that
produced a response, sleep durations requested, and the outcome. -/
structure RunTrace where
  calls : Nat
  sleeps : List ℚ
  outcome : NSOutcome
deriving DecidableEq

/-- One step of the `for attempt in range(max_retries + 1)` loop of
`_request`, with `fuel` the number of iterations left.  Faithful to the
source indentation: the 429/error-status/parse handling is reached only
in the `except TypeError` branch; when the first call simply returns a
response (`acceptsTimeout`), the loop body ends and the next iteration
begins. -/
def requestAux (transport : Nat → TransportStep) (maxRetries : Nat) (backoff : ℚ) :
    Nat → Nat → Nat → List ℚ → RunTrace
  | 0, _, calls, sleeps => ⟨calls, sleeps, .loopExhausted⟩
  | fuel + 1, attempt, calls, sleeps =>
    match transport attempt with
    | .acceptsTimeout _ =>
        requestAux transport maxRetries backoff fuel (attempt + 1) (calls + 1) sleeps
    | .rejectsTimeout r =>
        if r.status = 429 then
          if attempt = maxRetries then ⟨calls + 1, sleeps, .rateLimited⟩
          else requestAux transport maxRetries backoff fuel (attempt + 1) (calls + 1)
            (sleeps ++ [backoff * 2 ^ attempt])
        else if 400 ≤ r.status then ⟨calls + 1, sleeps, .httpError r.status r.text⟩
        else match r.jsonBody with
          | some j => ⟨calls + 1, sleeps, .ok (.json j)⟩
          | none => ⟨calls + 1, sleeps, .ok (.text r.text)⟩
    | .raisesOther =>
        if attempt = maxRetries then ⟨calls, sleeps, .transportRaised⟩
        else requestAux transport maxRetries backoff fuel (attempt + 1) calls
          (sleeps ++ [backoff * 2 ^ attempt])

/-- `NetSuiteClient._request` in non-test mode: run the retry loop from
attempt 0 with `max_retries + 1` iterations. -/
def runRequest (transport : Nat → TransportStep) (maxRetries : Nat) (backoff : ℚ) : RunTrace :=
  requestAux transport maxRetries backoff (maxRetries + 1) 0 0 []

/-! ## Callback authenticator

Embeds `_verify_slack_request` (`invoice_hawk/slack_app.py` lines
53-72).  `hmacHex secret msg` models `hmac.new(secret, msg,
sha256).hexdigest()`; `parseFloat` models Python `float()` on the header
string (`none` = `ValueError` raised); `now` models `time.time()`.  The
result is `none` when the function raises instead of returning. -/

/-- `_verify_slack_request`: missing or empty (falsy) headers return
`False`; then `float(timestamp)` is applied (raising on failure); then
requests with `|now - timestamp| > 300` return `False`; finally the
header is compared (via `hmac.compare_digest`) against
`"v0=" + hmacHex secret ("v0:" + timestamp + ":" + body)`. -/
def verifySlackRequest (hmacHex : String → String → String)
    (parseFloat : String → Option ℚ) (now : ℚ) (secret : String)
    (tsHeader sigHeader : Option String) (body : String) : Option Bool :=
  match tsHeader, sigHeader with
  | some ts, some sig =>
    if ts = "" ∨ sig = "" then some false
    else
      match parseFloat ts with
      | none => none
      | some t =>
        if 300 < |now - t| then some false
        else some (("v0=" ++ hmacHex secret ("v0:" ++ ts ++ ":" ++ body)) == sig)
  | _, _ => some false

/-! ## Database, audit trail and commits

The SQLAlchemy session is modelled as a list of pending writes applied
atomically by `commit()`: each handler below returns the list of commits
it issued, and `applyCommit` folds one commit into the database.  A
commit carries the status writes flushed from dirty ORM objects and the
`AuditLog` rows added via `session.add`; applying it is all-or-nothing,
which is the transactional semantics the ORM session provides. -/

/-- Structured `details` payload of an `AuditLog` row, one constructor
per event site in the embedded handlers. -/
inductive AuditDetails where
  /-- slack_app.py: `{"action": ..., "message_ts": ..., "channel": ...}`. -/
  | slackAction (actionId : Option String) (messageTs channel : Option String)
  /-- po_lookup: `{"po_data": ..., "within_tolerance": ...}`. -/
  | poCheck (poLines : List Line) (withinTolerance : Bool)
  /-- invoice_post: `{"decision": ...}` plus the NetSuite response when
  the decision was approve. -/
  | invoicePosted (decision : String) (nsExternalId : Option String)
deriving DecidableEq

/-- A row of the `audit_log` table (models.py `AuditLog`). -/
structure AuditRow where
  invoiceId : Option Int
  eventType : String
  details : AuditDetails
deriving DecidableEq

/-- A persisted invoice: the fields the handlers read and write. -/
structure InvoiceRow where
  status : String
  lines : List Line
deriving DecidableEq

/-- One `session.commit()`: the status writes and audit inserts it
flushes together. -/
structure Commit where
  statusWrites : List (Int × String)
  auditInserts : List AuditRow
deriving DecidableEq

/-- Database state: invoices by primary key, and the append-only
`audit_log` table. -/
structure DB where
  invoices : List (Int × InvoiceRow)
  audit : List AuditRow
deriving DecidableEq

/-- `session.get(Invoice, i)`. -/
def dbGet (db : DB) (i : Int) : Option InvoiceRow :=
  (db.invoices.find? (fun p => p.1 = i)).map (fun p => p.2)

/-- Overwrite the status of invoice `i` (the flush of
`invoice.status = new_status`). -/
def setStatus (invs : List (Int × InvoiceRow)) (i : Int) (s : String) :
    List (Int × InvoiceRow) :=
  invs.map (fun p => if p.1 = i then (p.1, { p.2 with status := s }) else p)

/-- Apply one commit atomically: all its status writes and all its audit
inserts land, or (when the commit never happens) none do. -/
def applyCommit (db : DB) (c : Commit) : DB :=
  { invoices := c.statusWrites.foldl (fun acc w => setStatus acc w.1 w.2) db.invoices
    audit := db.audit ++ c.auditInserts }

/-! ## slack_actions endpoint

Embeds the `/slack/actions` handler (`invoice_hawk/slack_app.py` lines
75-141) up to and including the database commit.  Form decoding plus
`json.loads` of the `payload` parameter is modelled by the
`PayloadParse` field of the request; `parseInt` models Python `int()` on
the button value (`none` = `ValueError`).  The post-commit Slack
message update touches no invoice state and is not modelled. -/

/-- One element of the payload's `actions` array: the fields read by the
handler. -/
structure SlackAction where
  actionId : Option String
  value : Option String
deriving DecidableEq

/-- Result of extracting and JSON-decoding the form's `payload`
parameter. -/
inductive PayloadParse where
  | invalid
  | parsed (actions : List SlackAction) (messageTs channel : Option String)
deriving DecidableEq

/-- An inbound HTTP request to `/slack/actions`. -/
structure SlackRequest where
  tsHeader : Option String
  sigHeader : Option String
  body : String
  payload : PayloadParse
deriving DecidableEq

/-- HTTP-level response of the endpoint. -/
inductive SlackResp where
  /-- `HTTPException(500)`: missing `SLACK_SIGNING_SECRET` or
  `DATABASE_URL`. -/
  | serverError (detail : String)
  /-- `HTTPException(401, "Invalid Slack signature")`. -/
  | unauthorized
  /-- a 400 response. -/
  | badRequest (msg : String)
  /-- 404 `{"error": "Invoice not found"}`. -/
  | notFound
  /-- 200 `{"ok": True}`. -/
  | ok
  /-- an exception escaped the handler (e.g. `float()` inside
  verification). -/
  | raised
deriving DecidableEq

/-- The `/slack/actions` handler as a function from environment,
request and database to a response plus the commits it issued. -/
def slackActionsCommits (hmacHex : String → String → String)
    (parseFloat : String → Option ℚ) (parseInt : String → Option Int)
    (now : ℚ) (secretEnv dbUrlEnv : Option String)
    (req : SlackRequest) (db : DB) : SlackResp × List Commit :=
  match secretEnv with
  | none => (.serverError "SLACK_SIGNING_SECRET not set", [])
  | some secret =>
    if secret = "" then (.serverError "SLACK_SIGNING_SECRET not set", [])
    else
      match verifySlackRequest hmacHex parseFloat now secret req.tsHeader req.sigHeader req.body with
      | none => (.raised, [])
      | some false => (.unauthorized, [])
      | some true =>
        match req.payload with
        | .invalid => (.badRequest "Invalid payload", [])
        | .parsed actions messageTs channel =>
          match actions with
          | [] => (.badRequest "No actions", [])
          | action :: _ =>
            match action.value with
            | none => (.badRequest "Missing invoice id", [])
            | some v =>
              if v = "" then (.badRequest "Missing invoice id", [])
              else
                match parseInt v with
                | none => (.badRequest "Invalid invoice id", [])
                | some invoiceId =>
                  let newStatus :=
                    if action.actionId == some "approve_invoice" then "approved" else "rejected"
                  match dbUrlEnv with
                  | none => (.serverError "DATABASE_URL not configured", [])
                  | some dbUrl =>
                    if dbUrl = "" then (.serverError "DATABASE_URL not configured", [])
                    else
                      match dbGet db invoiceId with
                      | none => (.notFound, [])
                      | some _ =>
                        (.ok, [{ statusWrites := [(invoiceId, newStatus)]
                                 auditInserts := [{ invoiceId := some invoiceId
                                                    eventType := "slack_action"
                                                    details := .slackAction action.actionId
                                                      messageTs channel }] }])

/-- The endpoint together with the resulting database state. -/
def slackActionsRun (hmacHex : String → String → String)
    (parseFloat : String → Option ℚ) (parseInt : String → Option Int)
    (now : ℚ) (secretEnv dbUrlEnv : Option String)
    (req : SlackRequest) (db : DB) : SlackResp × DB :=
  let r := slackActionsCommits hmacHex parseFloat parseInt now secretEnv dbUrlEnv req db
  (r.1, r.2.foldl applyCommit db)

/-! ## invoice_post and po_lookup handlers

Embeds `invoice_hawk/lambda_functions/invoice_post/main.py` and
`invoice_hawk/lambda_functions/po_lookup/main.py` `handler` functions.
The NetSuite call is a parameter (`none` = it raised, in which case the
handler dies before any commit). -/

/-- How the invoice_post handler terminates. -/
inductive PostResp where
  /-- `ValueError` on missing/falsy `invoice_id`, bad `decision`, or a
  missing invoice row. -/
  | valueError (msg : String)
  /-- `netsuite.post_invoice` raised; nothing was committed. -/
  | nsRaised
  /-- normal return `{"invoice_id": ..., "decision": ...}`. -/
  | done (decision : String)
deriving DecidableEq

/-- `invoice_post.handler`: `event.get("invoice_id")` is falsy when
missing or `0`; decision must be `"approve"` or `"reject"`; on approve
the invoice is first posted to NetSuite (`nsPost` is its
`external_id`, `none` meaning the call raised); the status write and
one audit insert go into a single commit. -/
def invoicePostCommits (invoiceId : Option Int) (decision : Option String)
    (nsPost : Option String) (db : DB) : PostResp × List Commit :=
  match invoiceId with
  | none => (.valueError "Both invoice_id and a valid decision are required", [])
  | some i =>
    if i = 0 then (.valueError "Both invoice_id and a valid decision are required", [])
    else if decision == some "approve" || decision == some "reject" then
      match dbGet db i with
      | none => (.valueError "Invoice not found", [])
      | some _ =>
        if decision == some "approve" then
          match nsPost with
          | none => (.nsRaised, [])
          | some extId =>
            (.done "approve", [{ statusWrites := [(i, "approved")]
                                 auditInserts := [{ invoiceId := some i
                                                    eventType := "invoice_post"
                                                    details := .invoicePosted "approve" (some extId) }] }])
        else
          (.done "reject", [{ statusWrites := [(i, "rejected")]
                              auditInserts := [{ invoiceId := some i
                                                 eventType := "invoice_post"
                                                 details := .invoicePosted "reject" none }] }])
    else (.valueError "Both invoice_id and a valid decision are required", [])

/-- How the po_lookup handler terminates. -/
inductive PoResp where
  /-- `ValueError` on missing/falsy `invoice_id` or missing invoice. -/
  | valueError (msg : String)
  /-- `netsuite.get_purchase_order` raised; nothing was committed. -/
  | nsRaised
  /-- normal return with the match verdict. -/
  | done (withinTolerance : Bool)
deriving DecidableEq

/-- `po_lookup.handler`: fetch the PO (`poFetch` models
`po_data.get("lines", [])`, `none` meaning the client raised), run
`_compare_lines` against the invoice's own lines, set the status to
`"matched"`/`"flagged"` and append one `po_check` audit row, all in one
commit. -/
def poLookupCommits (invoiceId : Option Int) (poFetch : Option (List Line))
    (db : DB) : PoResp × List Commit :=
  match invoiceId with
  | none => (.valueError "invoice_id is required", [])
  | some i =>
    if i = 0 then (.valueError "invoice_id is required", [])
    else
      match dbGet db i with
      | none => (.valueError "Invoice not found", [])
      | some inv =>
        match poFetch with
        | none => (.nsRaised, [])
        | some poLines =>
          let within := compareLines inv.lines poLines
          ((.done within),
            [{ statusWrites := [(i, if within then "matched" else "flagged")]
               auditInserts := [{ invoiceId := some i
                                  eventType := "po_check"
                                  details := .poCheck poLines within }] }])

/-! ## Invoice creation and the status enumeration

Embeds `cli.persist_invoice` (cli.py lines 83-99) and the `status`
column default of `invoice_hawk/models.py` (lines 37-41). -/

/-- The fields `persist_invoice` reads from the extraction result. -/
structure Extracted where
  vendor : Option String
  invoiceNumber : Option String
  invoiceDate : Option String
  total : Option ℚ
  purchaseOrderNumber : Option String
deriving DecidableEq

/-- The `Invoice` row as constructed by `persist_invoice`. -/
structure NewInvoice where
  vendor : Option String
  invoiceNumber : Option String
  invoiceDate : Option String
  total : ℚ
  purchaseOrderNumber : Option String
  status : String
deriving DecidableEq

/-- `cli.persist_invoice`: builds and commits a fresh `Invoice` with
`status="NEW"` (`total` defaulting to `0.0`). -/
def persist_invoice (e : Extracted) : NewInvoice :=
  { vendor := e.vendor
    invoiceNumber := e.invoiceNumber
    invoiceDate := e.invoiceDate
    total := e.total.getD 0
    purchaseOrderNumber := e.purchaseOrderNumber
    status := "NEW" }

/-- The `status` column default in models.py: `default="pending"`. -/
def invoiceStatusDefault : String := "pending"

/-- The enumerated status values of the spec's state machine (§4.3):
`new, matched, flagged, awaiting_approval, approved, rejected, error`. -/
def specStatusValues : List String :=
  ["new", "matched", "flagged", "awaiting_approval", "approved", "rejected", "error"]

/-! ## Helper lemmas -/

/-- For a non-negative basis, the Python truthiness guard
`r * q if q else 0` agrees with the spec's `max(r * q, 0)`. -/
lemma ite_tol_eq_max (r q : ℚ) (hr : 0 ≤ r) (hq : 0 ≤ q) :
    (if q ≠ 0 then r * q else 0) = max (r * q) 0 := by
  rcases eq_or_lt_of_le hq with h | h
  · simp [← h]
  · rw [if_pos h.ne', max_eq_left (mul_nonneg hr hq)]

lemma compareLines_short : ∀ (inv po : List Line), po.length < inv.length →
    compareLines inv po = false
  | [], _, h => absurd h (by simp)
  | _ :: _, [], _ => rfl
  | _ :: invs, _ :: pos, h => by
    have := compareLines_short invs pos (by simpa using h)
    simp [compareLines, this]

lemma compareLines_take : ∀ (inv po : List Line),
    compareLines inv po = compareLines inv (po.take inv.length)
  | [], _ => rfl
  | _ :: _, [] => rfl
  | i :: invs, p :: pos => by
    simp only [List.length_cons, List.take_succ_cons, compareLines,
      compareLines_take invs pos]

lemma cliCompareLines_eq : ∀ (inv po : List Line),
    cliCompareLines inv po = compareLines inv po
  | [], _ => rfl
  | _ :: _, [] => rfl
  | i :: invs, p :: pos => by
    show (cliLineWithinTol i p && cliCompareLines invs pos)
      = (lineWithinTol i p && compareLines invs pos)
    rw [cliCompareLines_eq invs pos]
    rfl

lemma compareLines_true_iff : ∀ (inv po : List Line),
    compareLines inv po = true ↔ inv.length ≤ po.length ∧
      ∀ (i : ℕ) (hi : i < inv.length) (hp : i < po.length),
        lineWithinTol (inv.get ⟨i, hi⟩) (po.get ⟨i, hp⟩) = true
  | [], po => by simp [compareLines]
  | i :: invs, [] => by simp [compareLines]
  | i :: invs, p :: pos => by
    simp only [compareLines, Bool.and_eq_true, compareLines_true_iff invs pos,
      List.length_cons]
    constructor
    · rintro ⟨h1, h2, h3⟩
      refine ⟨by omega, ?_⟩
      rintro (_ | j) hi hp
      · simpa using h1
      · simpa using h3 j (by omega) (by omega)
    · rintro ⟨hlen, h⟩
      refine ⟨by simpa using h 0 (by omega) (by omega), by omega, ?_⟩
      intro j hj hp
      simpa using h (j + 1) (by omega) (by omega)

/-! ## Claims -/

/-- C2 counterexample: `two_way_match` does not implement the
invoice-based tolerance formula.  Against its stub reference line
`(qty=10, price=99.5)`, an invoice line `(qty=11, price=99.5)` is
reported matched (its quantity bound is `max(1, 0.01*10) = 1`, computed
from the reference), yet the claimed formula
`|q_i - q_r| <= max(0.01*q_i, 0)` rejects it (`1 > 0.11`). -/
theorem two_way_match_not_invoice_based :
    (two_way_match 11 (199/2)).matched = true ∧
    ¬ specLinePass 11 (199/2) 10 (199/2) := by
  constructor
  · norm_num [two_way_match]
  · norm_num [specLinePass, QTY_TOLERANCE, PRICE_TOLERANCE, abs_le]

/-- C2 (amended): for non-negative invoice values, the per-line checks
of po_lookup's `_compare_lines` and cli's `compare_lines` pass iff
`|q_i - q_r| <= max(QTY_TOLERANCE * q_i, 0)` and
`|p_i - p_r| <= PRICE_TOLERANCE * p_i`, both bases the invoice's own
values (so a zero basis forces an exact match); `two_way_match` in
app/match_po instead bases both tolerances on its stub reference line
and floors the quantity bound at 1. -/
theorem tolerance_invoice_basis (inv po : Line)
    (hq : 0 ≤ inv.quantity) (hp : 0 ≤ inv.price) :
    (lineWithinTol inv po = true ↔
      specLinePass inv.quantity inv.price po.quantity po.price) ∧
    (cliLineWithinTol inv po = true ↔
      specLinePass inv.quantity inv.price po.quantity po.price) ∧
    ∀ q p : ℚ, (two_way_match q p).matched = true ↔
      (|p - 199/2| ≤ (199/2) * (2/100) ∧ |q - 10| ≤ max 1 (10 * (1/100))) := by
  have hqt : (0:ℚ) ≤ QTY_TOLERANCE := by norm_num [QTY_TOLERANCE]
  have hpt : (0:ℚ) ≤ PRICE_TOLERANCE := by norm_num [PRICE_TOLERANCE]
  have e1 := ite_tol_eq_max QTY_TOLERANCE inv.quantity hqt hq
  have e2 := ite_tol_eq_max PRICE_TOLERANCE inv.price hpt hp
  have e3 := max_eq_left (mul_nonneg hpt hp)
  refine ⟨?_, ?_, ?_⟩
  · simp only [lineWithinTol, specLinePass, Bool.and_eq_true, decide_eq_true_eq, e1, e2, e3]
  · simp only [cliLineWithinTol, specLinePass, Bool.and_eq_true, decide_eq_true_eq, e1, e2, e3]
  · intro q p
    simp [two_way_match]

/-- C2 witness: the spec's §8 example line `(qty=10, price=100)` against
reference `(qty=10.1, price=101.9)` passes `_compare_lines`. -/
theorem tolerance_invoice_basis_witness :
    lineWithinTol ⟨10, 100⟩ ⟨101/10, 1019/10⟩ = true :=
  (tolerance_invoice_basis ⟨10, 100⟩ ⟨101/10, 1019/10⟩ (by norm_num) (by norm_num)).1.mpr
    (by norm_num [specLinePass, QTY_TOLERANCE, PRICE_TOLERANCE, abs_le])

/-- C5: the matching engine is a pure function of the two lists: a
shorter reference list fails regardless of values; reference lines
beyond the invoice's length are ignored (the result only depends on the
truncated reference list); cli's `compare_lines` computes the same
function as po_lookup's `_compare_lines`; and the result is true iff
every invoice index is in range of the reference list and passes the
per-line tolerance check against the same index. -/
theorem matching_engine_positional (inv po : List Line) :
    (po.length < inv.length → compareLines inv po = false) ∧
    compareLines inv po = compareLines inv (po.take inv.length) ∧
    cliCompareLines inv po = compareLines inv po ∧
    (compareLines inv po = true ↔ inv.length ≤ po.length ∧
      ∀ (i : ℕ) (hi : i < inv.length) (hp : i < po.length),
        lineWithinTol (inv.get ⟨i, hi⟩) (po.get ⟨i, hp⟩) = true) :=
  ⟨compareLines_short inv po, compareLines_take inv po,
    cliCompareLines_eq inv po, compareLines_true_iff inv po⟩

/-- C5 witness: a one-line invoice against an empty reference list fails
(fail-fast on the shorter reference). -/
theorem matching_engine_positional_witness :
    compareLines [⟨10, 100⟩] [] = false :=
  (matching_engine_positional [⟨10, 100⟩] []).1 (by decide)

/-- C1: evaluation of the `_request` retry loop at the claim's inputs.
Because the 429/error/parse handling sits inside the `except TypeError`
branch, a transport that accepts the `timeout=` argument (as the real
`requests.request` does) and returns a 200 success on every attempt
never has its response returned: with `max_retries = 2` the loop makes
3 transport calls, discards every response and raises the trailing
`NetSuiteError` — contradicting the claim that a success response's
parsed body is returned.  The claimed behaviour does hold for the
transport shape used by the repository's tests (first call raises
`TypeError`, fallback call answers): rate-limit then success returns
the payload after exactly 2 calls, all-rate-limit raises the distinct
rate-limit error after exactly `max_retries + 1` calls with waits
`backoff * 2^attempt`. -/
theorem request_loop_drops_direct_response :
    runRequest (fun _ => .acceptsTimeout ⟨200, some "ok", "ok"⟩) 2 0 =
      ⟨3, [], .loopExhausted⟩ ∧
    runRequest (fun n => .rejectsTimeout
        (if n = 0 then ⟨429, none, "rate"⟩ else ⟨200, some "ok", "ok"⟩)) 2 0 =
      ⟨2, [0], .ok (.json "ok")⟩ ∧
    runRequest (fun _ => .rejectsTimeout ⟨429, none, "rate"⟩) 2 (1/2) =
      ⟨3, [1/2, 1], .rateLimited⟩ := by
  refine ⟨?_, ?_, ?_⟩ <;> norm_num [runRequest, requestAux]

/-- C4: with both headers present (non-empty) and a parseable timestamp,
`_verify_slack_request` returns `True` iff the request is within the
300-second replay window and the signature header equals
`"v0=" ++ hmac(secret, "v0:" ++ timestamp ++ ":" ++ body)`; a stale
request yields `False` regardless of the signature; a missing header
yields the same `False`.  (The comparison in the source is
`hmac.compare_digest`, i.e. constant-time; functionally it is the
string equality modelled here.) -/
theorem verify_request_characterization (hm : String → String → String)
    (pf : String → Option ℚ) (now t : ℚ) (secret ts sig body : String)
    (hts : ts ≠ "") (hsig : sig ≠ "") (hpf : pf ts = some t) :
    (verifySlackRequest hm pf now secret (some ts) (some sig) body = some true ↔
      |now - t| ≤ 300 ∧ sig = "v0=" ++ hm secret ("v0:" ++ ts ++ ":" ++ body)) ∧
    (300 < |now - t| →
      verifySlackRequest hm pf now secret (some ts) (some sig) body = some false) ∧
    (∀ sigH, verifySlackRequest hm pf now secret none sigH body = some false) ∧
    (∀ tsH, verifySlackRequest hm pf now secret tsH none body = some false) := by
  have hne : ¬ (ts = "" ∨ sig = "") := by
    rintro (h | h)
    · exact hts h
    · exact hsig h
  have hred : verifySlackRequest hm pf now secret (some ts) (some sig) body
      = if 300 < |now - t| then some false
        else some (("v0=" ++ hm secret ("v0:" ++ ts ++ ":" ++ body)) == sig) := by
    simp only [verifySlackRequest]
    rw [if_neg hne, hpf]
  refine ⟨?_, ?_, ?_, ?_⟩
  · rw [hred]
    by_cases h : 300 < |now - t|
    · simp [if_pos h, not_le.mpr h]
    · rw [if_neg h]
      constructor
      · intro hx
        rw [Option.some.injEq, beq_iff_eq] at hx
        exact ⟨not_lt.mp h, hx.symm⟩
      · rintro ⟨-, hx⟩
        rw [Option.some.injEq, beq_iff_eq]
        exact hx.symm
  · intro h
    rw [hred, if_pos h]
  · intro sigH
    cases sigH <;> rfl
  · intro tsH
    cases tsH <;> rfl

/-- C4 witness: a fresh, correctly signed request is accepted. -/
theorem verify_request_characterization_witness :
    verifySlackRequest (fun _ m => m) (fun s => if s = "0" then some 0 else none) 0 "k"
      (some "0") (some "v0=v0:0:b") "b" = some true :=
  (verify_request_characterization (fun _ m => m)
      (fun s => if s = "0" then some 0 else none) 0 0 "k" "0" "v0=v0:0:b" "b"
      (by decide) (by decide) rfl).1.mpr ⟨by norm_num, by decide⟩

/-- C10: `_verify_slack_request` is not total: when both headers are
present (non-empty) but the timestamp does not parse as a number,
`float(timestamp)` raises and the function neither returns `True` nor
`False` (modelled as `none`, which the endpoint turns into a server
error rather than a 401); and `False` is returned only when a header is
missing/empty, or the timestamp parses but is stale, or the signature
header differs from the expected value. -/
theorem verify_unparseable_timestamp_raises (hm : String → String → String)
    (pf : String → Option ℚ) (now : ℚ) (secret ts sig body : String)
    (hts : ts ≠ "") (hsig : sig ≠ "") (hpf : pf ts = none) :
    verifySlackRequest hm pf now secret (some ts) (some sig) body = none ∧
    (∀ tsH sigH, verifySlackRequest hm pf now secret tsH sigH body = some false →
      tsH = none ∨ sigH = none ∨ tsH = some "" ∨ sigH = some "" ∨
      ∃ u t, tsH = some u ∧ pf u = some t ∧
        (300 < |now - t| ∨
          sigH ≠ some ("v0=" ++ hm secret ("v0:" ++ u ++ ":" ++ body)))) := by
  constructor
  · have hne : ¬ (ts = "" ∨ sig = "") := by
      rintro (h | h)
      · exact hts h
      · exact hsig h
    simp only [verifySlackRequest]
    rw [if_neg hne, hpf]
  · intro tsH sigH h
    rcases tsH with _ | u
    · exact Or.inl rfl
    rcases sigH with _ | s
    · exact Or.inr (Or.inl rfl)
    by_cases hu : u = ""
    · subst hu
      exact Or.inr (Or.inr (Or.inl rfl))
    by_cases hs : s = ""
    · subst hs
      exact Or.inr (Or.inr (Or.inr (Or.inl rfl)))
    refine Or.inr (Or.inr (Or.inr (Or.inr ?_)))
    have hne2 : ¬ (u = "" ∨ s = "") := by
      rintro (hh | hh)
      · exact hu hh
      · exact hs hh
    simp only [verifySlackRequest] at h
    rw [if_neg hne2] at h
    rcases hpu : pf u with _ | t
    · rw [hpu] at h
      exact Option.noConfusion h
    · rw [hpu] at h
      have h2 : (if 300 < |now - t| then (some false : Option Bool)
          else some (("v0=" ++ hm secret ("v0:" ++ u ++ ":" ++ body)) == s)) = some false := h
      refine ⟨u, t, rfl, hpu, ?_⟩
      by_cases hst : 300 < |now - t|
      · exact Or.inl hst
      · rw [if_neg hst] at h2
        refine Or.inr (fun hcon => ?_)
        rw [Option.some.injEq] at hcon h2
        rw [hcon] at h2
        simp at h2

/-- C10 witness: a request with a non-numeric timestamp header raises
instead of returning `False`. -/
theorem verify_unparseable_timestamp_raises_witness :
    verifySlackRequest (fun _ _ => "") (fun _ => none) 0 "k"
      (some "x") (some "y") "b" = none :=
  (verify_unparseable_timestamp_raises (fun _ _ => "") (fun _ => none) 0 "k"
    "x" "y" "b" (by decide) (by decide) rfl).1

/-- Reduction of the slack_actions endpoint on the fully successful
path: secret configured, signature verified, payload parsed with a
first action carrying a non-empty parseable value, database configured
and the invoice present.  The decision is applied unconditionally —
the current status `inv.status` is never consulted. -/
lemma slackActionsCommits_success (hm : String → String → String)
    (pf : String → Option ℚ) (pint : String → Option Int) (now : ℚ)
    (secret dbUrl : String) (req : SlackRequest) (db : DB)
    (aid : Option String) (v : String) (rest : List SlackAction)
    (msgTs chan : Option String) (i : Int) (inv : InvoiceRow)
    (hsecret : secret ≠ "")
    (hverify : verifySlackRequest hm pf now secret req.tsHeader req.sigHeader req.body = some true)
    (hpayload : req.payload = .parsed ({ actionId := aid, value := some v } :: rest) msgTs chan)
    (hv : v ≠ "") (hpint : pint v = some i) (hdbUrl : dbUrl ≠ "")
    (hdb : dbGet db i = some inv) :
    slackActionsCommits hm pf pint now (some secret) (some dbUrl) req db =
      (.ok, [{ statusWrites :=
                 [(i, if aid == some "approve_invoice" then "approved" else "rejected")]
               auditInserts := [{ invoiceId := some i, eventType := "slack_action"
                                  details := .slackAction aid msgTs chan }] }]) := by
  simp [slackActionsCommits, hverify, hpayload, hpint, hdb, hsecret, hv, hdbUrl]

/-- C8: a request that fails signature/staleness verification is
answered 401 before any state is touched — the endpoint issues no
commit at all, so neither the invoice table nor the audit log changes
(in particular the failure is not written to the invoice's audit
trail). -/
theorem failed_verification_touches_no_state (hm : String → String → String)
    (pf : String → Option ℚ) (pint : String → Option Int) (now : ℚ)
    (secret : String) (dbUrlEnv : Option String) (req : SlackRequest) (db : DB)
    (hsecret : secret ≠ "")
    (hverify : verifySlackRequest hm pf now secret req.tsHeader req.sigHeader req.body = some false) :
    slackActionsRun hm pf pint now (some secret) dbUrlEnv req db = (.unauthorized, db) ∧
    (slackActionsCommits hm pf pint now (some secret) dbUrlEnv req db).2 = [] := by
  have h1 : slackActionsCommits hm pf pint now (some secret) dbUrlEnv req db
      = (.unauthorized, []) := by
    simp [slackActionsCommits, hsecret, hverify]
  exact ⟨by simp [slackActionsRun, h1], by rw [h1]⟩

/-- C8 witness: a request with no signature header is rejected without
touching a database holding one awaiting_approval invoice. -/
theorem failed_verification_touches_no_state_witness :
    slackActionsRun (fun _ _ => "h") (fun _ => some 0) (fun _ => none) 0
      (some "s") (some "db")
      { tsHeader := some "0", sigHeader := none, body := "b", payload := .invalid }
      { invoices := [(1, { status := "awaiting_approval", lines := [] })], audit := [] } =
      (.unauthorized,
        { invoices := [(1, { status := "awaiting_approval", lines := [] })], audit := [] }) :=
  (failed_verification_touches_no_state (fun _ _ => "h") (fun _ => some 0) (fun _ => none) 0
    "s" (some "db")
    { tsHeader := some "0", sigHeader := none, body := "b", payload := .invalid }
    { invoices := [(1, { status := "awaiting_approval", lines := [] })], audit := [] }
    (by decide) rfl).1

/-- C3 counterexample: an invoice whose status is already the terminal
`"approved"` is not protected: a verified reject callback is accepted
with HTTP 200, its status is overwritten to `"rejected"` and a fresh
audit row is appended — there is no `InvalidTransition` rejection
anywhere in the endpoint. -/
theorem approved_invoice_overwritten :
    slackActionsRun (fun _ _ => "h") (fun _ => some 0)
      (fun s => if s = "1" then some 1 else none) 0 (some "s") (some "db")
      { tsHeader := some "0", sigHeader := some "v0=h", body := "b"
        payload := .parsed [{ actionId := some "reject_invoice", value := some "1" }] none none }
      { invoices := [(1, { status := "approved", lines := [] })], audit := [] } =
      (.ok, { invoices := [(1, { status := "rejected", lines := [] })]
              audit := [{ invoiceId := some 1, eventType := "slack_action"
                          details := .slackAction (some "reject_invoice") none none }] }) := by
  norm_num [slackActionsRun, slackActionsCommits, verifySlackRequest, dbGet,
    applyCommit, setStatus, List.find?]
  decide

/-- C3 (amended): `approved` and `rejected` are not terminal in the
code.  For every current status of the invoice — the terminal ones
included — a verified callback is applied unconditionally: the endpoint
returns 200, overwrites the status with the new decision and appends a
new audit row; re-delivery of an already-applied callback is therefore
silently re-applied, and no `InvalidTransition` error exists. -/
theorem callback_applied_regardless_of_status (hm : String → String → String)
    (pf : String → Option ℚ) (pint : String → Option Int) (now : ℚ)
    (secret dbUrl : String) (req : SlackRequest) (db : DB)
    (aid : Option String) (v : String) (rest : List SlackAction)
    (msgTs chan : Option String) (i : Int) (inv : InvoiceRow)
    (hsecret : secret ≠ "")
    (hverify : verifySlackRequest hm pf now secret req.tsHeader req.sigHeader req.body = some true)
    (hpayload : req.payload = .parsed ({ actionId := aid, value := some v } :: rest) msgTs chan)
    (hv : v ≠ "") (hpint : pint v = some i) (hdbUrl : dbUrl ≠ "")
    (hdb : dbGet db i = some inv) :
    slackActionsRun hm pf pint now (some secret) (some dbUrl) req db =
      (.ok, { invoices := setStatus db.invoices i
                (if aid == some "approve_invoice" then "approved" else "rejected")
              audit := db.audit ++ [{ invoiceId := some i, eventType := "slack_action"
                                      details := .slackAction aid msgTs chan }] }) := by
  have h1 := slackActionsCommits_success hm pf pint now secret dbUrl req db aid v rest
    msgTs chan i inv hsecret hverify hpayload hv hpint hdbUrl hdb
  simp [slackActionsRun, h1, applyCommit]

/-- C3 witness: re-delivery of an approve callback to an
already-rejected invoice is applied again (status overwritten to
approved, second audit row appended). -/
theorem callback_applied_regardless_of_status_witness :
    slackActionsRun (fun _ _ => "h") (fun _ => some 0)
      (fun s => if s = "2" then some 2 else none) 0 (some "s") (some "db")
      { tsHeader := some "0", sigHeader := some "v0=h", body := "b"
        payload := .parsed [{ actionId := some "approve_invoice", value := some "2" }] none none }
      { invoices := [(2, { status := "rejected", lines := [] })], audit := [] } =
      (.ok, { invoices := setStatus [(2, { status := "rejected", lines := [] })] 2
                (if some "approve_invoice" == some "approve_invoice" then "approved" else "rejected")
              audit := [] ++ [{ invoiceId := some 2, eventType := "slack_action"
                                details := .slackAction (some "approve_invoice") none none }] }) :=
  callback_applied_regardless_of_status (fun _ _ => "h") (fun _ => some 0)
    (fun s => if s = "2" then some 2 else none) 0 "s" "db"
    { tsHeader := some "0", sigHeader := some "v0=h", body := "b"
      payload := .parsed [{ actionId := some "approve_invoice", value := some "2" }] none none }
    { invoices := [(2, { status := "rejected", lines := [] })], audit := [] }
    (some "approve_invoice") "2" [] none none 2 { status := "rejected", lines := [] }
    (by decide) (by norm_num [verifySlackRequest]; decide) rfl (by decide) rfl (by decide) rfl

/-- C9: for a verified callback, the status written is `"rejected"` for
every first-action `action_id` other than exactly `"approve_invoice"` —
including `"reject_invoice"`, any unknown string, and a missing id —
and `"approved"` exactly when the id is `"approve_invoice"`. -/
theorem non_approve_action_means_rejected (hm : String → String → String)
    (pf : String → Option ℚ) (pint : String → Option Int) (now : ℚ)
    (secret dbUrl : String) (req : SlackRequest) (db : DB)
    (aid : Option String) (v : String) (rest : List SlackAction)
    (msgTs chan : Option String) (i : Int) (inv : InvoiceRow)
    (hsecret : secret ≠ "")
    (hverify : verifySlackRequest hm pf now secret req.tsHeader req.sigHeader req.body = some true)
    (hpayload : req.payload = .parsed ({ actionId := aid, value := some v } :: rest) msgTs chan)
    (hv : v ≠ "") (hpint : pint v = some i) (hdbUrl : dbUrl ≠ "")
    (hdb : dbGet db i = some inv) :
    (aid ≠ some "approve_invoice" →
      slackActionsRun hm pf pint now (some secret) (some dbUrl) req db =
        (.ok, { invoices := setStatus db.invoices i "rejected"
                audit := db.audit ++ [{ invoiceId := some i, eventType := "slack_action"
                                        details := .slackAction aid msgTs chan }] })) ∧
    (aid = some "approve_invoice" →
      slackActionsRun hm pf pint now (some secret) (some dbUrl) req db =
        (.ok, { invoices := setStatus db.invoices i "approved"
                audit := db.audit ++ [{ invoiceId := some i, eventType := "slack_action"
                                        details := .slackAction aid msgTs chan }] })) := by
  have h1 := slackActionsCommits_success hm pf pint now secret dbUrl req db aid v rest
    msgTs chan i inv hsecret hverify hpayload hv hpint hdbUrl hdb
  constructor
  · intro ha
    have hbeq : (aid == some "approve_invoice") = false := beq_eq_false_iff_ne.mpr ha
    simp [slackActionsRun, h1, applyCommit, hbeq]
  · intro ha
    subst ha
    simp [slackActionsRun, h1, applyCommit]

/-- C9 witness: a verified callback whose action id is the unrecognised
string `"zzz"` sets the invoice status to rejected. -/
theorem non_approve_action_means_rejected_witness :
    slackActionsRun (fun _ _ => "h") (fun _ => some 0)
      (fun s => if s = "3" then some 3 else none) 0 (some "s") (some "db")
      { tsHeader := some "0", sigHeader := some "v0=h", body := "b"
        payload := .parsed [{ actionId := some "zzz", value := some "3" }] none none }
      { invoices := [(3, { status := "awaiting_approval", lines := [] })], audit := [] } =
      (.ok, { invoices := setStatus [(3, { status := "awaiting_approval", lines := [] })] 3 "rejected"
              audit := [] ++ [{ invoiceId := some 3, eventType := "slack_action"
                                details := .slackAction (some "zzz") none none }] }) :=
  (non_approve_action_means_rejected (fun _ _ => "h") (fun _ => some 0)
    (fun s => if s = "3" then some 3 else none) 0 "s" "db"
    { tsHeader := some "0", sigHeader := some "v0=h", body := "b"
      payload := .parsed [{ actionId := some "zzz", value := some "3" }] none none }
    { invoices := [(3, { status := "awaiting_approval", lines := [] })], audit := [] }
    (some "zzz") "3" [] none none 3 { status := "awaiting_approval", lines := [] }
    (by decide) (by norm_num [verifySlackRequest]; decide) rfl (by decide) rfl (by decide) rfl).1
    (by decide)

/-- C6: in each handler that writes a new status (slack_actions,
invoice_post, po_lookup), every successful run issues exactly one
commit, and that commit carries exactly one status write together with
exactly one audit insert; `applyCommit` applies a commit atomically, so
a failed commit leaves the status unchanged (no handler ever commits a
status write without its audit row or vice versa). -/
theorem transition_commits_status_with_one_audit :
    (∀ (hm : String → String → String) (pf : String → Option ℚ)
        (pint : String → Option Int) (now : ℚ) (se de : Option String)
        (req : SlackRequest) (db : DB) (cs : List Commit),
      slackActionsCommits hm pf pint now se de req db = (.ok, cs) →
      ∃ i st a, cs = [{ statusWrites := [(i, st)], auditInserts := [a] }]) ∧
    (∀ (invoiceId : Option Int) (decision nsPost : Option String) (db : DB)
        (d : String) (cs : List Commit),
      invoicePostCommits invoiceId decision nsPost db = (.done d, cs) →
      ∃ i st a, cs = [{ statusWrites := [(i, st)], auditInserts := [a] }]) ∧
    (∀ (invoiceId : Option Int) (poFetch : Option (List Line)) (db : DB)
        (w : Bool) (cs : List Commit),
      poLookupCommits invoiceId poFetch db = (.done w, cs) →
      ∃ i st a, cs = [{ statusWrites := [(i, st)], auditInserts := [a] }]) := by
  refine ⟨?_, ?_, ?_⟩
  · intro hm pf pint now se de req db cs h
    unfold slackActionsCommits at h
    repeat' split at h
    all_goals injection h with h1 h2
    all_goals first
      | exact SlackResp.noConfusion h1
      | exact ⟨_, _, _, h2.symm⟩
  · intro invoiceId decision nsPost db d cs h
    unfold invoicePostCommits at h
    repeat' split at h
    all_goals injection h with h1 h2
    all_goals first
      | exact PostResp.noConfusion h1
      | exact ⟨_, _, _, h2.symm⟩
  · intro invoiceId poFetch db w cs h
    unfold poLookupCommits at h
    repeat' split at h
    all_goals injection h with h1 h2
    all_goals first
      | exact PoResp.noConfusion h1
      | exact ⟨_, _, _, h2.symm⟩

/-- C6 witness: one successful run of each of the three handlers, each
shown to issue a single commit pairing one status write with one audit
row. -/
theorem transition_commits_status_with_one_audit_witness :
    (∃ i st a,
      ([{ statusWrites := [((4:Int), "approved")]
          auditInserts := [{ invoiceId := some 4, eventType := "slack_action"
                             details := .slackAction (some "approve_invoice") none none }] }]
        : List Commit) = [{ statusWrites := [(i, st)], auditInserts := [a] }]) ∧
    (∃ i st a,
      ([{ statusWrites := [((5:Int), "rejected")]
          auditInserts := [{ invoiceId := some 5, eventType := "invoice_post"
                             details := .invoicePosted "reject" none }] }]
        : List Commit) = [{ statusWrites := [(i, st)], auditInserts := [a] }]) ∧
    (∃ i st a,
      ([{ statusWrites := [((6:Int), "matched")]
          auditInserts := [{ invoiceId := some 6, eventType := "po_check"
                             details := .poCheck [] true }] }]
        : List Commit) = [{ statusWrites := [(i, st)], auditInserts := [a] }]) :=
  ⟨transition_commits_status_with_one_audit.1 (fun _ _ => "h") (fun _ => some 0)
      (fun s => if s = "4" then some 4 else none) 0 (some "s") (some "db")
      { tsHeader := some "0", sigHeader := some "v0=h", body := "b"
        payload := .parsed [{ actionId := some "approve_invoice", value := some "4" }] none none }
      { invoices := [(4, { status := "awaiting_approval", lines := [] })], audit := [] } _
      (by norm_num [slackActionsCommits, verifySlackRequest, dbGet, List.find?]
          decide),
    transition_commits_status_with_one_audit.2.1 (some 5) (some "reject") none
      { invoices := [(5, { status := "awaiting_approval", lines := [] })], audit := [] }
      "reject" _ rfl,
    transition_commits_status_with_one_audit.2.2 (some 6) (some [])
      { invoices := [(6, { status := "new", lines := [] })], audit := [] } true _ rfl⟩

/-- C7 counterexample: immediately after creation through
`cli.persist_invoice`, the invoice's status is the string `"NEW"`,
which is not among the state machine's enumerated values — so the
claimed invariant already fails at creation time. -/
theorem created_status_not_enumerated :
    (persist_invoice { vendor := none, invoiceNumber := none, invoiceDate := none
                       total := none, purchaseOrderNumber := none }).status = "NEW" ∧
    "NEW" ∉ specStatusValues := ⟨rfl, by decide⟩

/-- C7 (amended): the creation points violate the enumeration —
`persist_invoice` writes the status string `"NEW"` and the models.py
column default is `"pending"`, neither of which is an enumerated value —
while every status subsequently written by the slack_actions,
invoice_post and po_lookup handlers (whatever the inputs) is one of the
enumerated values. -/
theorem status_enumeration_amended :
    (∀ e : Extracted, (persist_invoice e).status = "NEW" ∧
      "NEW" ∉ specStatusValues ∧ invoiceStatusDefault ∉ specStatusValues) ∧
    (∀ (hm : String → String → String) (pf : String → Option ℚ)
        (pint : String → Option Int) (now : ℚ) (se de : Option String)
        (req : SlackRequest) (db : DB) (r : SlackResp) (cs : List Commit)
        (c : Commit) (w : Int × String),
      slackActionsCommits hm pf pint now se de req db = (r, cs) →
      c ∈ cs → w ∈ c.statusWrites → w.2 ∈ specStatusValues) ∧
    (∀ (invoiceId : Option Int) (decision nsPost : Option String) (db : DB)
        (r : PostResp) (cs : List Commit) (c : Commit) (w : Int × String),
      invoicePostCommits invoiceId decision nsPost db = (r, cs) →
      c ∈ cs → w ∈ c.statusWrites → w.2 ∈ specStatusValues) ∧
    (∀ (invoiceId : Option Int) (poFetch : Option (List Line)) (db : DB)
        (r : PoResp) (cs : List Commit) (c : Commit) (w : Int × String),
      poLookupCommits invoiceId poFetch db = (r, cs) →
      c ∈ cs → w ∈ c.statusWrites → w.2 ∈ specStatusValues) := by
  refine ⟨?_, ?_, ?_, ?_⟩
  · intro e
    exact ⟨rfl, by decide, by decide⟩
  · intro hm pf pint now se de req db r cs c w h hc hw
    unfold slackActionsCommits at h
    repeat' split at h
    all_goals injection h with h1 h2
    all_goals subst h2
    all_goals simp_all [specStatusValues]
  · intro invoiceId decision nsPost db r cs c w h hc hw
    unfold invoicePostCommits at h
    repeat' split at h
    all_goals injection h with h1 h2
    all_goals subst h2
    all_goals simp_all [specStatusValues]
  · intro invoiceId poFetch db r cs c w h hc hw
    unfold poLookupCommits at h
    repeat' split at h
    all_goals injection h with h1 h2
    all_goals subst h2
    all_goals simp_all [specStatusValues]
    all_goals (split at hw <;> simp_all)

/-- C7 witness: a concrete creation (status `"NEW"`, outside the
enumeration) and a concrete handler write (`"rejected"`, inside the
enumeration). -/
theorem status_enumeration_amended_witness :
    ((persist_invoice { vendor := some "v", invoiceNumber := some "n", invoiceDate := none
                        total := some 10, purchaseOrderNumber := some "po" }).status = "NEW" ∧
      "NEW" ∉ specStatusValues ∧ invoiceStatusDefault ∉ specStatusValues) ∧
    "rejected" ∈ specStatusValues :=
  ⟨status_enumeration_amended.1
      { vendor := some "v", invoiceNumber := some "n", invoiceDate := none
        total := some 10, purchaseOrderNumber := some "po" },
    status_enumeration_amended.2.2.1 (some 5) (some "reject") none
      { invoices := [(5, { status := "awaiting_approval", lines := [] })], audit := [] }
      (.done "reject")
      [{ statusWrites := [((5:Int), "rejected")]
         auditInserts := [{ invoiceId := some 5, eventType := "invoice_post"
                            details := .invoicePosted "reject" none }] }]
      { statusWrites := [((5:Int), "rejected")]
        auditInserts := [{ invoiceId := some 5, eventType := "invoice_post"
                           details := .invoicePosted "reject" none }] }
      ((5:Int), "rejected") rfl (by simp) (by simp)⟩

end InvoiceHawk
